import Mathlib

/-!
Shallow embedding of the LXD profile endpoint handlers (`profiles.go`):
`profilesGet`, `profilesPost`, `profileGet`, `profilePut`, `profilePatch`,
`profilePost` (rename) and `profileDelete`, together with the external
collaborators they consume (profile store, project feature query, instance
index, cluster notifier), and proofs of the behavioural claims about them.

Go maps (`map[string]string` for config, `map[string]map[string]string` for
devices) are embedded as `Finmap`: entry order is irrelevant by construction,
exactly as for a Go map.  The profile store is embedded as an association
list keyed by `(project, name)`; handlers are pure functions from a world
(store + collaborator oracles) and a decoded request to a response and the
store left behind.
-/

namespace LXDProfiles

/-- `map[string]string` of Go: a string-keyed string map, entry order irrelevant. -/
abbrev SMap := Finmap (fun _ : String => String)

/-- `map[string]map[string]string` of Go: the devices map. -/
abbrev DMap := Finmap (fun _ : String => SMap)

/-- The mutable fields of a stored profile (`db.Profile` without ids):
description, config and devices. -/
structure ProfileRec where
  description : String
  config : SMap
  devices : DMap
deriving DecidableEq

/-- The ETag value built by the handlers:
`etag := []interface{}{profile.Config, profile.Description, profile.Devices}`. -/
structure Etag where
  config : SMap
  description : String
  devices : DMap
deriving DecidableEq

/-- The etag of `profileGet` / `profilePut` / `profilePatch`: exactly the triple
(config, description, devices) of the profile read from the store. -/
def profileEtag (p : ProfileRec) : Etag :=
  ⟨p.config, p.description, p.devices⟩

/-- The profile store contents: association list keyed by `(project, name)`. -/
abbrev Store := List ((String × String) × ProfileRec)

/-- `tx.ProfileGet project name` seen as a partial lookup: the profile stored
under `(project, name)`, if any. -/
def storeGet : Store → String → String → Option ProfileRec
  | [], _, _ => none
  | (k, p) :: rest, proj, name =>
    if k = (proj, name) then some p else storeGet rest proj name

/-- Modelled from the spec: `tx.ProfileCreate` (store adapter, outside src/)
inserts a new profile row; `create(Profile) → id` fails with AlreadyExists
when `(namespace, name)` is already live (spec section 4.2). -/
def storeCreate (st : Store) (proj name : String) (p : ProfileRec) :
    Option Store :=
  match storeGet st proj name with
  | some _ => none
  | none => some (((proj, name), p) :: st)

/-- Modelled from the spec: `tx.ProfileDelete` (store adapter, outside src/)
removes the row at `(namespace, name)`; fails with NotFound when absent
(spec section 4.2). -/
def storeDelete (st : Store) (proj name : String) : Option Store :=
  match storeGet st proj name with
  | some _ => some (st.filter (fun e => !(e.1 = (proj, name) : Bool)))
  | none => none

/-- Modelled from the spec: `replace(namespace, name, newFields)` (store
adapter, outside src/) overwrites description, config and devices of the row
at `(namespace, name)`; fails with NotFound when absent (spec section 4.2). -/
def storeReplace (st : Store) (proj name : String) (p : ProfileRec) :
    Option Store :=
  match storeGet st proj name with
  | some _ => some (st.map (fun e => if e.1 = (proj, name) then (e.1, p) else e))
  | none => none

/-- Modelled from the spec: `tx.ProfileRename` (store adapter, outside src/)
moves the row from `(namespace, oldName)` to `(namespace, newName)` keeping
the fields; fails with NotFound when the old name is absent (spec
section 4.2). -/
def storeRename (st : Store) (proj old new : String) : Option Store :=
  match storeGet st proj old with
  | some _ =>
      some (st.map (fun e => if e.1 = (proj, old) then ((proj, new), e.2) else e))
  | none => none

/-- The internal errors a handler can hand to `SmartError`. -/
inductive Err where
  /-- `db.ErrNoSuchObject` from the store. -/
  | noSuchObject
  /-- `fmt.Errorf("Name ... already in use")` from the rename transaction. -/
  | nameInUse (name : String)
  /-- `fmt.Errorf("Failed to retrieve profile=...")` from put and patch. -/
  | retrieveFailed (name : String)
  /-- `fmt.Errorf("Error inserting ... into database: ...")` from create. -/
  | insertFailed (name : String)
  /-- a validation error surfaced through `doProfileUpdate`. -/
  | invalid (what : String)
  /-- an error returned by the cluster notifier hook. -/
  | notifyFailed (msg : String)
deriving DecidableEq

/-- The response values the handlers build. -/
inductive Response where
  /-- `SyncResponse(true, apiProfiles)` of the recursive list. -/
  | syncList (ps : List ProfileRec)
  /-- `SyncResponse(true, uris)` of the non-recursive list. -/
  | syncURIs (us : List String)
  /-- `SyncResponseETag(true, resp, etag)` of get. -/
  | syncETag (p : ProfileRec) (etag : Etag)
  /-- `SyncResponseLocation(true, nil, loc)` of create and rename. -/
  | syncLocation (loc : String)
  /-- `EmptySyncResponse`. -/
  | emptySync
  /-- `BadRequest(err)`. -/
  | badRequest (msg : String)
  /-- `Forbidden(err)`. -/
  | forbidden (msg : String)
  /-- `PreconditionFailed(err)`. -/
  | preconditionFailed
  /-- `InternalError(err)`, also the `SmartError` image of plain errors. -/
  | internalError (msg : String)
  /-- `NotFound`: the `SmartError` image of `db.ErrNoSuchObject`. -/
  | notFound
  /-- `Conflict`: the `SmartError` image of a naming collision. -/
  | conflict (name : String)
deriving DecidableEq

/-- Modelled from the spec: `SmartError` (response mapping, outside src/) maps
internal errors onto the error taxonomy of spec section 7: absent entity to
NotFound, naming collision on rename to Conflict, everything else kept as a
plain error response; `SmartError(nil)` is `EmptySyncResponse`. -/
def smartError : Option Err → Response
  | none => .emptySync
  | some .noSuchObject => .notFound
  | some (.nameInUse n) => .conflict n
  | some (.retrieveFailed n) => .internalError ("Failed to retrieve profile=" ++ n)
  | some (.insertFailed n) => .internalError ("Error inserting " ++ n ++ " into database")
  | some (.invalid w) => .internalError w
  | some (.notifyFailed m) => .internalError m

/-- The world a request executes against: the store plus the external
collaborators (`tx.ProjectHasProfiles`, `getContainersWithProfile`,
`containerValidConfig`, `containerValidDevices`). -/
structure World where
  store : Store
  hasProfiles : String → Bool
  containersWith : String → String → List String
  validConfig : SMap → Bool
  validDevices : DMap → Bool

/-- `api.ProfilePut`: the typed body of put, and of create without the name. -/
structure ProfilePutBody where
  description : String
  config : SMap
  devices : DMap
deriving DecidableEq

/-- `api.ProfilesPost`: the typed body of create. -/
structure ProfilesPostBody where
  name : String
  description : String
  config : SMap
  devices : DMap
deriving DecidableEq

/-- `api.ProfilePost`: the typed body of rename. -/
structure ProfilePostBody where
  name : String
deriving DecidableEq

/-- The body of patch as the handler sees it after the double decode:
`descriptionRaw` is `some s` exactly when the raw document contains the key
"description" (with string value `s`, the value the typed decode then holds);
`config` and `devices` are `none` exactly when the typed decode leaves the Go
map nil (key absent or null), and `some m` when the key is present, `m`
possibly empty. -/
structure PatchBody where
  descriptionRaw : Option String
  config : Option SMap
  devices : Option DMap
deriving DecidableEq

/-- `util.EtagCheck`: passes when the request carries no token, otherwise
compares the carried token with the current etag (modelled from the spec,
section 4.3: `checkPrecondition(request, token) → ok|Mismatch`; the hash is
collision-free by assumption, so tokens are compared as values). -/
def etagCheck (provided : Option Etag) (current : Etag) : Bool :=
  match provided with
  | none => true
  | some t => t = current

/-- `profilesGet`: list the profiles of the effective project, resolving the
project to "default" when it lacks the profiles feature. -/
def profilesGet (w : World) (project : String) (recursion : Bool) : Response :=
  let proj := if w.hasProfiles project then project else "default"
  if recursion then
    .syncList ((w.store.filter (fun e => e.1.1 = proj)).map (fun e => e.2))
  else
    .syncURIs ((w.store.filter (fun e => e.1.1 = proj)).map
      (fun e => "/1.0/profiles/" ++ e.1.2))

/-- `profilesPost`: create a profile.  The body is `none` when the JSON decode
fails.  Follows the handler line by line: decode, empty-name check, existing
profile check via `d.cluster.ProfileGet`, slash and dot checks, config and
device validation, then `tx.ProfileCreate` inside the transaction. -/
def profilesPost (w : World) (project : String)
    (body : Option ProfilesPostBody) : Response × Store :=
  match body with
  | none => (.badRequest "decode error", w.store)
  | some req =>
    if req.name = "" then (.badRequest "No name provided", w.store)
    else
      match storeGet w.store project req.name with
      | some _ => (.badRequest "The profile already exists", w.store)
      | none =>
        if req.name.data.contains (Char.ofNat 47) then
          (.badRequest "Profile names may not contain slashes", w.store)
        else if req.name = "." ∨ req.name = ".." then
          (.badRequest "Invalid profile name", w.store)
        else if ¬ w.validConfig req.config then
          (.badRequest "invalid config", w.store)
        else if ¬ w.validDevices req.devices then
          (.badRequest "invalid devices", w.store)
        else
          match storeCreate w.store project req.name
              ⟨req.description, req.config, req.devices⟩ with
          | some st => (.syncLocation ("/1.0/profiles/" ++ req.name), st)
          | none => (smartError (some (.insertFailed req.name)), w.store)

/-- `profileGet`: fetch one profile, resolving the project to "default" when
it lacks the profiles feature, and answer with the profile and its etag. -/
def profileGet (w : World) (project name : String) : Response :=
  let proj := if w.hasProfiles project then project else "default"
  match storeGet w.store proj name with
  | none => smartError (some .noSuchObject)
  | some p => .syncETag p (profileEtag p)

/-- Modelled from the spec: `doProfileUpdate` (defined outside src/) validates
the new config and devices and then overwrites the stored profile's
description, config and devices entirely — the write path shared by replace
and patch (spec sections 4.4 output and 4.7, Replace row). -/
def doProfileUpdate (w : World) (project name : String)
    (req : ProfilePutBody) : Option Err × Store :=
  if ¬ w.validConfig req.config then (some (.invalid "invalid config"), w.store)
  else if ¬ w.validDevices req.devices then
    (some (.invalid "invalid devices"), w.store)
  else
    match storeReplace w.store project name
        ⟨req.description, req.config, req.devices⟩ with
    | some st => (none, st)
    | none => (some .noSuchObject, w.store)

/-- Modelled from the spec: `doProfileUpdateCluster` (defined outside src/) is
the receiving side of propagation: the node applies the mutation locally,
re-checking its own precondition against the passed-in prior state, and never
re-propagates (spec section 4.6). -/
def doProfileUpdateCluster (w : World) (project name : String)
    (old : ProfilePutBody) : Option Err :=
  match storeGet w.store project name with
  | none => some .noSuchObject
  | some p =>
      if profileEtag ⟨old.description, old.config, old.devices⟩ = profileEtag p
      then none else some (.invalid "stale prior state")

/-- The cluster notifier built with `cluster.NotifyAlive`: nodes that are down
are already skipped (modelled from the spec, section 4.6), so `peers` lists
the outcome of `client.UpdateProfile` on each reachable node (`none` for
success, `some msg` for a failure); the notifier returns the first failure,
if any. -/
def notifier (peers : List (Option String)) : Option String :=
  (peers.filterMap id).head?

/-- `profilePut`: replace a profile.  `reqEtag` is the If-Match token carried
by the request, `body` is `none` when the JSON decode fails, `isClusterNotif`
is `isClusterNotification(r)`, and `peers` the outcomes of the propagation
calls to the reachable nodes.  Follows the handler line by line: the
cluster-notification branch, `d.cluster.ProfileGet`, the etag check, decode,
`doProfileUpdate`, then notification of the other nodes with errors
surfaced through `SmartError`. -/
def profilePut (w : World) (peers : List (Option String)) (project name : String)
    (reqEtag : Option Etag) (body : Option ProfilePutBody)
    (isClusterNotif : Bool) : Response × Store :=
  if isClusterNotif then
    match body with
    | none => (.badRequest "decode error", w.store)
    | some old => (smartError (doProfileUpdateCluster w project name old), w.store)
  else
    match storeGet w.store project name with
    | none => (smartError (some (.retrieveFailed name)), w.store)
    | some profile =>
      if ¬ etagCheck reqEtag (profileEtag profile) then
        (.preconditionFailed, w.store)
      else
        match body with
        | none => (.badRequest "decode error", w.store)
        | some req =>
          match doProfileUpdate w project name req with
          | (some e, st) => (smartError (some e), st)
          | (none, st) =>
            match notifier peers with
            | some m => (smartError (some (.notifyFailed m)), st)
            | none => (smartError none, st)

/-- `profilePatch`: partial update.  Follows the handler line by line:
`d.cluster.ProfileGet`, the etag check, the double decode (`body` is `none`
when either decode fails), the description fallback from the raw document,
the config and device merges (supplied keys win, previous-only keys are
copied in), then `doProfileUpdate`. -/
def profilePatch (w : World) (project name : String) (reqEtag : Option Etag)
    (body : Option PatchBody) : Response × Store :=
  match storeGet w.store project name with
  | none => (smartError (some (.retrieveFailed name)), w.store)
  | some profile =>
    if ¬ etagCheck reqEtag (profileEtag profile) then
      (.preconditionFailed, w.store)
    else
      match body with
      | none => (.badRequest "decode error", w.store)
      | some b =>
        let desc := match b.descriptionRaw with
          | none => profile.description
          | some s => s
        let cfg := match b.config with
          | none => profile.config
          | some c => c ∪ profile.config
        let dev := match b.devices with
          | none => profile.devices
          | some dv => dv ∪ profile.devices
        match doProfileUpdate w project name ⟨desc, cfg, dev⟩ with
        | (e, st) => (smartError e, st)

/-- `profilePost`: rename a profile.  Follows the handler line by line: the
"default" guard, decode, empty-name, slash and dot checks, then the
transaction checking the new name is unused before `tx.ProfileRename`. -/
def profilePost (w : World) (project name : String)
    (body : Option ProfilePostBody) : Response × Store :=
  if name = "default" then
    (.forbidden "The default profile cannot be renamed", w.store)
  else
    match body with
    | none => (.badRequest "decode error", w.store)
    | some req =>
      if req.name = "" then (.badRequest "No name provided", w.store)
      else if req.name.data.contains (Char.ofNat 47) then
        (.badRequest "Profile names may not contain slashes", w.store)
      else if req.name = "." ∨ req.name = ".." then
        (.badRequest "Invalid profile name", w.store)
      else
        match storeGet w.store project req.name with
        | some _ => (smartError (some (.nameInUse req.name)), w.store)
        | none =>
          match storeRename w.store project name req.name with
          | some st => (.syncLocation ("/1.0/profiles/" ++ req.name), st)
          | none => (smartError (some .noSuchObject), w.store)

/-- `profileDelete`: delete a profile.  Follows the handler line by line: the
"default" guard, `d.cluster.ProfileGet`, the in-use check against
`getContainersWithProfile`, then `tx.ProfileDelete`. -/
def profileDelete (w : World) (project name : String) : Response × Store :=
  if name = "default" then
    (.forbidden "The default profile cannot be deleted", w.store)
  else
    match storeGet w.store project name with
    | none => (smartError (some .noSuchObject), w.store)
    | some _ =>
      if w.containersWith project name ≠ [] then
        (.badRequest "Profile is currently in use", w.store)
      else
        match storeDelete w.store project name with
        | some st => (.emptySync, st)
        | none => (smartError (some .noSuchObject), w.store)

/-! Concrete fixtures used to evaluate the handlers on closed inputs. -/

/-- A one-entry config map. -/
def cfgA : SMap :=
  ([⟨"limits.cpu", "2"⟩] : List (Sigma (fun _ : String => String))).toFinmap

/-- A one-entry config map with a key different from the one of `cfgA`. -/
def cfgB : SMap :=
  ([⟨"limits.memory", "512MB"⟩] : List (Sigma (fun _ : String => String))).toFinmap

/-- A stored profile with one config key. -/
def prof1 : ProfileRec := ⟨"desc one", cfgA, ∅⟩

/-- A world holding `prof1` at `("p", "web")`, all projects with the profiles
feature, no referencing instances, all content valid. -/
def w1 : World :=
  ⟨[(("p", "web"), prof1)], fun _ => true, fun _ _ => [], fun _ => true,
    fun _ => true⟩

/-- Like `w1` but no project has the profiles feature. -/
def w2 : World :=
  ⟨[(("p", "web"), prof1)], fun _ => false, fun _ _ => [], fun _ => true,
    fun _ => true⟩

/-- Like `w1` but instance "c1" references every profile. -/
def w3 : World :=
  ⟨[(("p", "web"), prof1)], fun _ => true, fun _ _ => ["c1"], fun _ => true,
    fun _ => true⟩

/-- A second stored profile. -/
def prof2 : ProfileRec := ⟨"desc two", ∅, ∅⟩

/-- A world holding `prof1` at `("p", "web")` and `prof2` at `("p", "blog")`. -/
def w8 : World :=
  ⟨[(("p", "web"), prof1), (("p", "blog"), prof2)], fun _ => true,
    fun _ _ => [], fun _ => true, fun _ => true⟩

/-- A full-replace body. -/
def putBody1 : ProfilePutBody := ⟨"new desc", ∅, ∅⟩

/-- An etag matching no stored profile of the fixtures. -/
def staleTag : Etag := ⟨∅, "stale", ∅⟩

/-- Two entry lists that are permutations of each other with distinct keys. -/
def entriesA : List (Sigma (fun _ : String => String)) :=
  [⟨"limits.cpu", "2"⟩, ⟨"limits.memory", "512MB"⟩]

/-- `entriesA` reversed. -/
def entriesB : List (Sigma (fun _ : String => String)) :=
  [⟨"limits.memory", "512MB"⟩, ⟨"limits.cpu", "2"⟩]

/-! Helper lemmas. -/

/-- Building a `Finmap` from permuted entry lists with distinct keys gives the
same map. -/
theorem toFinmap_perm {l₁ l₂ : List (Sigma (fun _ : String => String))}
    (nd : l₁.NodupKeys) (h : List.Perm l₁ l₂) : l₁.toFinmap = l₂.toFinmap := by
  apply Finmap.ext_lookup
  intro x
  rw [Finmap.dlookup_list_toFinmap, Finmap.dlookup_list_toFinmap]
  exact List.perm_dlookup x nd ((List.perm_nodupKeys h).mp nd) h

/-- `SmartError` never yields the precondition-failed response. -/
theorem smartError_ne_preconditionFailed (e : Option Err) :
    smartError e ≠ Response.preconditionFailed := by
  cases e with
  | none => simp [smartError]
  | some err => cases err <;> simp [smartError]

/-- After filtering out every entry keyed `(proj, name)`, the lookup of
`(proj, name)` is empty. -/
theorem storeGet_filter_self (st : Store) (proj name : String) :
    storeGet (st.filter (fun e => !(e.1 = (proj, name) : Bool))) proj name =
      none := by
  induction st with
  | nil => rfl
  | cons e rest ih =>
    by_cases h : e.1 = (proj, name)
    · simpa [List.filter_cons, h] using ih
    · simpa [List.filter_cons, h, storeGet] using ih

/-- Overwriting the fields of every entry keyed `(proj, name)` makes the
lookup of `(proj, name)` find the new fields, provided the key was present. -/
theorem storeGet_map_replace (st : Store) (proj name : String)
    (q p : ProfileRec) (h : storeGet st proj name = some p) :
    storeGet (st.map (fun e => if e.1 = (proj, name) then (e.1, q) else e))
      proj name = some q := by
  induction st with
  | nil => simp [storeGet] at h
  | cons e rest ih =>
    simp only [List.map_cons]
    by_cases he : e.1 = (proj, name)
    · rw [if_pos he]
      simp [storeGet, he]
    · rw [if_neg he]
      have h' : storeGet rest proj name = some p := by
        simpa [storeGet, he] using h
      simpa [storeGet, he] using ih h'

/-- `doProfileUpdate` leaves the profile either unchanged (on a validation
failure or a missing row) or overwritten with exactly the supplied document. -/
theorem doProfileUpdate_store (w : World) (project name : String)
    (req : ProfilePutBody) (p p' : ProfileRec)
    (hget : storeGet w.store project name = some p)
    (hafter :
      storeGet (doProfileUpdate w project name req).2 project name = some p') :
    p' = p ∨ p' = ⟨req.description, req.config, req.devices⟩ := by
  by_cases hvc : w.validConfig req.config = true
  · by_cases hvd : w.validDevices req.devices = true
    · simp only [doProfileUpdate, hvc, hvd, not_true_eq_false,
        Bool.false_eq_true, if_false, storeReplace, hget] at hafter
      rw [storeGet_map_replace w.store project name
        ⟨req.description, req.config, req.devices⟩ p hget] at hafter
      exact Or.inr (Option.some.inj hafter).symm
    · have hst : (doProfileUpdate w project name req).2 = w.store := by
        simp [doProfileUpdate, hvc, hvd]
      rw [hst, hget] at hafter
      exact Or.inl (Option.some.inj hafter).symm
  · have hst : (doProfileUpdate w project name req).2 = w.store := by
      simp [doProfileUpdate, hvc]
    rw [hst, hget] at hafter
    exact Or.inl (Option.some.inj hafter).symm

/-- A patch on an existing profile leaves the profile either unchanged or
overwritten with exactly the merged document built from the previous profile
and the request body. -/
theorem profilePatch_store (w : World) (project name : String)
    (reqEtag : Option Etag) (b : PatchBody) (p p' : ProfileRec)
    (hget : storeGet w.store project name = some p)
    (hafter : storeGet (profilePatch w project name reqEtag (some b)).2
        project name = some p') :
    p' = p ∨
      p' = ⟨(match b.descriptionRaw with
             | none => p.description
             | some s => s),
            (match b.config with
             | none => p.config
             | some c => c ∪ p.config),
            (match b.devices with
             | none => p.devices
             | some dv => dv ∪ p.devices)⟩ := by
  by_cases hc : etagCheck reqEtag (profileEtag p) = true
  · simp only [profilePatch, hget, hc, not_true_eq_false, Bool.false_eq_true,
      if_false] at hafter
    exact doProfileUpdate_store w project name _ p p' hget hafter
  · have hst : (profilePatch w project name reqEtag (some b)).2 = w.store := by
      simp [profilePatch, hget, hc]
    rw [hst, hget] at hafter
    exact Or.inl (Option.some.inj hafter).symm

/-- When a patch on an existing profile answers the success response, the
store left behind is the store with the profile overwritten by the merged
document. -/
theorem profilePatch_success (w : World) (project name : String)
    (reqEtag : Option Etag) (b : PatchBody) (p : ProfileRec)
    (hget : storeGet w.store project name = some p)
    (hs : (profilePatch w project name reqEtag (some b)).1 =
      Response.emptySync) :
    (profilePatch w project name reqEtag (some b)).2 =
      w.store.map (fun e => if e.1 = (project, name) then
        (e.1, (⟨(match b.descriptionRaw with
                 | none => p.description
                 | some s => s),
                (match b.config with
                 | none => p.config
                 | some c => c ∪ p.config),
                (match b.devices with
                 | none => p.devices
                 | some dv => dv ∪ p.devices)⟩ : ProfileRec)) else e) := by
  by_cases hc : etagCheck reqEtag (profileEtag p) = true
  · by_cases hvc : w.validConfig
        (match b.config with
         | none => p.config
         | some c => c ∪ p.config) = true
    · by_cases hvd : w.validDevices
          (match b.devices with
           | none => p.devices
           | some dv => dv ∪ p.devices) = true
      · simp only [profilePatch, hget, hc, not_true_eq_false,
          Bool.false_eq_true, if_false, doProfileUpdate, hvc, hvd,
          storeReplace]
      · exfalso
        simp [profilePatch, hget, hc, doProfileUpdate, hvc, hvd,
          smartError] at hs
    · exfalso
      simp [profilePatch, hget, hc, doProfileUpdate, hvc, smartError] at hs
  · exfalso
    simp [profilePatch, hget, hc] at hs

/-- After renaming every entry keyed `(proj, old)` to `(proj, new)` with
`new ≠ old`, the lookup of `(proj, old)` is empty. -/
theorem storeGet_rename_old (st : Store) (proj old new : String)
    (hne : new ≠ old) :
    storeGet
      (st.map (fun e => if e.1 = (proj, old) then ((proj, new), e.2) else e))
      proj old = none := by
  induction st with
  | nil => rfl
  | cons e rest ih =>
    simp only [List.map_cons]
    by_cases he : e.1 = (proj, old)
    · rw [if_pos he]
      simpa [storeGet, hne] using ih
    · rw [if_neg he]
      simpa [storeGet, he] using ih

/-- After renaming every entry keyed `(proj, old)` to `(proj, new)`, the
lookup of `(proj, new)` finds the fields previously stored at `(proj, old)`,
provided `(proj, old)` was present and `(proj, new)` was not. -/
theorem storeGet_rename_new (st : Store) (proj old new : String)
    (p : ProfileRec) (hold : storeGet st proj old = some p)
    (hnew : storeGet st proj new = none) :
    storeGet
      (st.map (fun e => if e.1 = (proj, old) then ((proj, new), e.2) else e))
      proj new = some p := by
  induction st with
  | nil => simp [storeGet] at hold
  | cons e rest ih =>
    have hene : ¬ e.1 = (proj, new) := by
      intro h
      simp [storeGet, if_pos h] at hnew
    have hnew' : storeGet rest proj new = none := by
      simpa [storeGet, hene] using hnew
    simp only [List.map_cons]
    by_cases he : e.1 = (proj, old)
    · rw [if_pos he]
      simp only [storeGet, if_pos he] at hold
      simpa [storeGet] using hold
    · rw [if_neg he]
      simp only [storeGet, if_neg he, if_false] at hold
      simpa [storeGet, hene] using ih hold hnew'

/-! Claims. -/

/-- C3: the fingerprint returned by get is a deterministic function of exactly
the profile's (config, description, devices): equality of the three fields
gives an equal fingerprint, the fingerprint of a config map built from
permuted entries is unchanged (map-entry order is irrelevant), and equal
fingerprints force equality of all three fields, so a change to any one field
changes the fingerprint. -/
theorem C3_fingerprint :
    (∀ p q : ProfileRec, p.config = q.config → p.description = q.description →
      p.devices = q.devices → profileEtag p = profileEtag q)
    ∧ (∀ (l₁ l₂ : List (Sigma (fun _ : String => String))) (d : String)
        (dv : DMap), l₁.NodupKeys → List.Perm l₁ l₂ →
        profileEtag ⟨d, l₁.toFinmap, dv⟩ = profileEtag ⟨d, l₂.toFinmap, dv⟩)
    ∧ (∀ p q : ProfileRec, profileEtag p = profileEtag q → p = q) := by
  refine ⟨?_, ?_, ?_⟩
  · intro p q h1 h2 h3
    simp [profileEtag, h1, h2, h3]
  · intro l₁ l₂ d dv nd h
    simp [profileEtag, toFinmap_perm nd h]
  · intro p q h
    cases p
    cases q
    simp only [profileEtag, Etag.mk.injEq] at h
    simp [h.1, h.2.1, h.2.2]

/-- Witness for C3 at concrete inputs: the two permuted entry lists give the
same fingerprint. -/
theorem C3_fingerprint_witness :
    profileEtag ⟨"d", entriesA.toFinmap, ∅⟩ =
      profileEtag ⟨"d", entriesB.toFinmap, ∅⟩ :=
  C3_fingerprint.2.1 entriesA entriesB "d" ∅
    (by show entriesA.keys.Nodup; decide) (by decide)

/-- C10: rename and delete of the profile named "default" answer Forbidden for
every world and every request body, in particular when no profile named
"default" is stored (precedence over NotFound) and when the body is malformed
(`none`, precedence over BadRequest): the guard runs before any store lookup
or body parsing. -/
theorem C10_default_guard :
    ∀ (w : World) (project : String) (body : Option ProfilePostBody),
      profilePost w project "default" body =
        (Response.forbidden "The default profile cannot be renamed", w.store) ∧
      profileDelete w project "default" =
        (Response.forbidden "The default profile cannot be deleted", w.store) := by
  intro w project body
  exact ⟨rfl, rfl⟩

/-- C1: a replace or patch request carrying a token different from the
fingerprint of the stored profile answers PreconditionFailed and leaves the
store unchanged; a request carrying the fingerprint of the unchanged stored
profile (the token get returns for it) never answers PreconditionFailed. -/
theorem C1_precondition :
    (∀ (w : World) (peers : List (Option String)) (project name : String)
       (t : Etag) (body : Option ProfilePutBody) (p : ProfileRec),
       storeGet w.store project name = some p → t ≠ profileEtag p →
       profilePut w peers project name (some t) body false =
         (Response.preconditionFailed, w.store))
    ∧ (∀ (w : World) (project name : String) (t : Etag)
        (body : Option PatchBody) (p : ProfileRec),
       storeGet w.store project name = some p → t ≠ profileEtag p →
       profilePatch w project name (some t) body =
         (Response.preconditionFailed, w.store))
    ∧ (∀ (w : World) (peers : List (Option String)) (project name : String)
        (body : Option ProfilePutBody) (p : ProfileRec),
       storeGet w.store project name = some p →
       (profilePut w peers project name (some (profileEtag p)) body false).1 ≠
         Response.preconditionFailed)
    ∧ (∀ (w : World) (project name : String) (body : Option PatchBody)
        (p : ProfileRec),
       storeGet w.store project name = some p →
       (profilePatch w project name (some (profileEtag p)) body).1 ≠
         Response.preconditionFailed) := by
  refine ⟨?_, ?_, ?_, ?_⟩
  · intro w peers project name t body p hget hne
    simp [profilePut, hget, etagCheck, hne]
  · intro w project name t body p hget hne
    simp [profilePatch, hget, etagCheck, hne]
  · intro w peers project name body p hget
    have hc : etagCheck (some (profileEtag p)) (profileEtag p) = true := by
      simp [etagCheck]
    cases body with
    | none => simp [profilePut, hget, hc]
    | some req =>
      simp only [profilePut, hget, hc, not_true_eq_false, Bool.false_eq_true,
        if_false]
      rcases hdo : doProfileUpdate w project name req with ⟨e, st⟩
      cases e with
      | some err => simp [smartError_ne_preconditionFailed]
      | none =>
        cases hn : notifier peers with
        | some m => simp [hn, smartError_ne_preconditionFailed]
        | none => simp [hn, smartError_ne_preconditionFailed]
  · intro w project name body p hget
    have hc : etagCheck (some (profileEtag p)) (profileEtag p) = true := by
      simp [etagCheck]
    cases body with
    | none => simp [profilePatch, hget, hc]
    | some b =>
      simp only [profilePatch, hget, hc, not_true_eq_false, Bool.false_eq_true,
        if_false]
      exact smartError_ne_preconditionFailed _

/-- Witness for C1 at concrete inputs: a stale token is refused without a
store change, the freshly derived token is not. -/
theorem C1_precondition_witness :
    profilePut w1 [] "p" "web" (some staleTag) (some putBody1) false =
      (Response.preconditionFailed, w1.store) ∧
    (profilePatch w1 "p" "web" (some (profileEtag prof1)) none).1 ≠
      Response.preconditionFailed :=
  ⟨C1_precondition.1 w1 [] "p" "web" staleTag (some putBody1) prof1
      (by decide) (by decide),
    C1_precondition.2.2.2 w1 "p" "web" none prof1 (by decide)⟩

/-- Counterexample to C4: in the world `w2` no project has the profiles
feature and only `("p", "web")` is stored, so a delete resolved to the default
namespace would answer NotFound and leave the store unchanged; the handler
instead deletes `("p", "web")` — delete (like create, replace, patch and
rename) does not resolve the namespace. -/
theorem C4_counterexample :
    w2.hasProfiles "p" = false ∧
    storeGet w2.store "default" "web" = none ∧
    profileDelete w2 "p" "web" = (Response.emptySync, []) ∧
    profileDelete w2 "p" "web" ≠
      (smartError (some Err.noSuchObject), w2.store) := by
  refine ⟨rfl, rfl, by decide, by decide⟩

/-- C4 as amended: only list and get resolve the namespace, falling back to
the fixed default namespace exactly when the requested project lacks the
profiles feature (re-evaluated per request, as the resolution reads the
feature oracle of the current world); create, replace, patch, rename and
delete use the requested namespace unchanged — their outcome is independent
of the feature oracle. -/
theorem C4_amended :
    (∀ (w : World) (project : String) (r : Bool),
       w.hasProfiles project = false →
       profilesGet w project r = profilesGet w "default" r)
    ∧ (∀ (w : World) (project name : String),
       w.hasProfiles project = false →
       profileGet w project name = profileGet w "default" name)
    ∧ (∀ (st : Store) (f g : String → Bool)
        (cw : String → String → List String) (vc : SMap → Bool)
        (vd : DMap → Bool) (project : String)
        (body : Option ProfilesPostBody),
       profilesPost ⟨st, f, cw, vc, vd⟩ project body =
         profilesPost ⟨st, g, cw, vc, vd⟩ project body)
    ∧ (∀ (st : Store) (f g : String → Bool)
        (cw : String → String → List String) (vc : SMap → Bool)
        (vd : DMap → Bool) (peers : List (Option String))
        (project name : String) (reqEtag : Option Etag)
        (body : Option ProfilePutBody) (icn : Bool),
       profilePut ⟨st, f, cw, vc, vd⟩ peers project name reqEtag body icn =
         profilePut ⟨st, g, cw, vc, vd⟩ peers project name reqEtag body icn)
    ∧ (∀ (st : Store) (f g : String → Bool)
        (cw : String → String → List String) (vc : SMap → Bool)
        (vd : DMap → Bool) (project name : String) (reqEtag : Option Etag)
        (body : Option PatchBody),
       profilePatch ⟨st, f, cw, vc, vd⟩ project name reqEtag body =
         profilePatch ⟨st, g, cw, vc, vd⟩ project name reqEtag body)
    ∧ (∀ (st : Store) (f g : String → Bool)
        (cw : String → String → List String) (vc : SMap → Bool)
        (vd : DMap → Bool) (project name : String)
        (body : Option ProfilePostBody),
       profilePost ⟨st, f, cw, vc, vd⟩ project name body =
         profilePost ⟨st, g, cw, vc, vd⟩ project name body)
    ∧ (∀ (st : Store) (f g : String → Bool)
        (cw : String → String → List String) (vc : SMap → Bool)
        (vd : DMap → Bool) (project name : String),
       profileDelete ⟨st, f, cw, vc, vd⟩ project name =
         profileDelete ⟨st, g, cw, vc, vd⟩ project name) := by
  refine ⟨?_, ?_, ?_, ?_, ?_, ?_, ?_⟩
  · intro w project r h
    simp [profilesGet, h]
  · intro w project name h
    simp [profileGet, h]
  · intro st f g cw vc vd project body
    rfl
  · intro st f g cw vc vd peers project name reqEtag body icn
    rfl
  · intro st f g cw vc vd project name reqEtag body
    rfl
  · intro st f g cw vc vd project name body
    rfl
  · intro st f g cw vc vd project name
    rfl

/-- Witness for C4 as amended at concrete inputs: in `w2` the list and get of
project "p" behave as on the default namespace. -/
theorem C4_amended_witness :
    profilesGet w2 "p" true = profilesGet w2 "default" true ∧
    profileGet w2 "p" "web" = profileGet w2 "default" "web" :=
  ⟨C4_amended.1 w2 "p" true rfl, C4_amended.2.1 w2 "p" "web" rfl⟩

/-- Counterexample to C5: in `w1` the replace of `("p", "web")` succeeds
locally (the store ends up holding the new fields), yet with one reachable
peer whose propagation call fails the client-visible response is the error
response carrying the propagation failure, not the success response. -/
theorem C5_counterexample :
    profilePut w1 [some "boom"] "p" "web" none (some putBody1) false =
      (Response.internalError "boom",
        [(("p", "web"), (⟨"new desc", ∅, ∅⟩ : ProfileRec))]) ∧
    (profilePut w1 [some "boom"] "p" "web" none (some putBody1) false).1 ≠
      Response.emptySync :=
  ⟨by decide, by decide⟩

/-- C5 as amended: when a replace succeeds locally on a client
(non-cluster-internal) request, the local write persists in the store in
every case; if every propagation call to the reachable nodes succeeds the
client sees the success response, but the first propagation failure is
surfaced as the client-facing error of the request (only unreachable nodes
are skipped silently, by the notifier's alive-only policy). -/
theorem C5_amended :
    ∀ (w : World) (peers : List (Option String)) (project name : String)
      (reqEtag : Option Etag) (req : ProfilePutBody) (p : ProfileRec)
      (st : Store),
      storeGet w.store project name = some p →
      etagCheck reqEtag (profileEtag p) = true →
      doProfileUpdate w project name req = (none, st) →
      (notifier peers = none →
        profilePut w peers project name reqEtag (some req) false =
          (Response.emptySync, st))
      ∧ (∀ m, notifier peers = some m →
        profilePut w peers project name reqEtag (some req) false =
          (Response.internalError m, st)) := by
  intro w peers project name reqEtag req p st hget hc hdo
  constructor
  · intro hn
    simp [profilePut, hget, hc, hdo, hn, smartError]
  · intro m hn
    simp [profilePut, hget, hc, hdo, hn, smartError]

/-- Witness for C5 as amended at concrete inputs: with one failing reachable
peer the client sees the propagation error while the local write is kept. -/
theorem C5_amended_witness :
    profilePut w1 [some "boom"] "p" "web" none (some putBody1) false =
      (Response.internalError "boom",
        [(("p", "web"), (⟨"new desc", ∅, ∅⟩ : ProfileRec))]) :=
  (C5_amended w1 [some "boom"] "p" "web" none putBody1 prof1
      [(("p", "web"), (⟨"new desc", ∅, ∅⟩ : ProfileRec))]
      (by decide) (by decide) (by decide)).2 "boom" (by decide)

/-- Counterexample to C6: creating "web" in project "p" of `w1`, where a live
profile "web" already exists, answers BadRequest (the same error category as
malformed input), not a Conflict/AlreadyExists response; the store is
unchanged. -/
theorem C6_counterexample :
    profilesPost w1 "p" (some ⟨"web", "", ∅, ∅⟩) =
      (Response.badRequest "The profile already exists", w1.store) ∧
    (profilesPost w1 "p" (some ⟨"web", "", ∅, ∅⟩)).1 ≠
      Response.conflict "web" :=
  ⟨by decide, by decide⟩

/-- C6 as amended: a create request whose (non-empty) name is already used by
a live profile in the namespace fails with BadRequest carrying the message
"The profile already exists", and inserts nothing: the store is unchanged. -/
theorem C6_amended :
    ∀ (w : World) (project : String) (req : ProfilesPostBody) (p : ProfileRec),
      req.name ≠ "" →
      storeGet w.store project req.name = some p →
      profilesPost w project (some req) =
        (Response.badRequest "The profile already exists", w.store) := by
  intro w project req p hne hget
  simp [profilesPost, hne, hget]

/-- Witness for C6 as amended at a concrete input. -/
theorem C6_amended_witness :
    profilesPost w1 "p" (some ⟨"web", "d2", ∅, ∅⟩) =
      (Response.badRequest "The profile already exists", w1.store) :=
  C6_amended w1 "p" ⟨"web", "d2", ∅, ∅⟩ prof1 (by decide) (by decide)

/-- Counterexample to C7: deleting `("p", "web")` in `w3`, where instance "c1"
references the profile, answers BadRequest (the error category of malformed
input) with the message "Profile is currently in use" — not a distinct InUse
error — and the profile remains. -/
theorem C7_counterexample :
    profileDelete w3 "p" "web" =
      (Response.badRequest "Profile is currently in use", w3.store) ∧
    (profileDelete w3 "p" "web").1 =
      Response.badRequest "Profile is currently in use" :=
  ⟨by decide, by decide⟩

/-- C7 as amended: deleting an existing non-default profile referenced by at
least one instance fails with BadRequest carrying the message "Profile is
currently in use" and leaves the store unchanged; with zero referencing
instances the delete succeeds and the profile is no longer found. -/
theorem C7_amended :
    ∀ (w : World) (project name : String) (p : ProfileRec),
      name ≠ "default" →
      storeGet w.store project name = some p →
      (w.containersWith project name ≠ [] →
        profileDelete w project name =
          (Response.badRequest "Profile is currently in use", w.store))
      ∧ (w.containersWith project name = [] →
        (profileDelete w project name).1 = Response.emptySync ∧
        storeGet (profileDelete w project name).2 project name = none) := by
  intro w project name p hnd hget
  constructor
  · intro hin
    simp [profileDelete, hnd, hget, hin]
  · intro hin
    simp [profileDelete, hnd, hget, hin, storeDelete, storeGet_filter_self]

/-- Witness for C7 as amended at concrete inputs: in `w3` the referenced
profile cannot be deleted, in `w1` the unreferenced one can and is gone. -/
theorem C7_amended_witness :
    profileDelete w3 "p" "web" =
      (Response.badRequest "Profile is currently in use", w3.store) ∧
    (profileDelete w1 "p" "web").1 = Response.emptySync ∧
    storeGet (profileDelete w1 "p" "web").2 "p" "web" = none :=
  ⟨(C7_amended w3 "p" "web" prof1 (by decide) (by decide)).1 (by decide),
    (C7_amended w1 "p" "web" prof1 (by decide) (by decide)).2 (by decide)⟩

/-- Counterexample to C2: patching `("p", "web")` in `w1` with a body whose
config is the explicitly-present empty object succeeds, yet the stored config
is still the previous one-key map, not the empty map: the merge loop copies
every previous key into the supplied empty map. -/
theorem C2_counterexample :
    (profilePatch w1 "p" "web" none (some ⟨none, some ∅, none⟩)).1 =
      Response.emptySync ∧
    storeGet (profilePatch w1 "p" "web" none (some ⟨none, some ∅, none⟩)).2
      "p" "web" = some prof1 ∧
    prof1.config ≠ (∅ : SMap) :=
  ⟨by decide, by decide, by decide⟩

/-- C2 as amended: in a patch of an existing profile whose body carries a
config object, a config key present in the previous config but omitted from
the supplied config keeps its previous value in the resulting profile; and a
patch whose body carries config as an explicitly-present empty object also
keeps the previous config entirely — exactly as if config had been omitted,
so no patch can remove a config key. -/
theorem C2_amended :
    ∀ (w : World) (project name : String) (p p' : ProfileRec)
      (dr : Option String) (dvOpt : Option DMap) (cfg : SMap)
      (reqEtag : Option Etag),
      storeGet w.store project name = some p →
      storeGet
        (profilePatch w project name reqEtag (some ⟨dr, some cfg, dvOpt⟩)).2
        project name = some p' →
      ((∀ (k v : String), k ∉ cfg → p.config.lookup k = some v →
         p'.config.lookup k = some v)
       ∧ (cfg = ∅ → p'.config = p.config)) := by
  intro w project name p p' dr dvOpt cfg reqEtag hget hafter
  rcases profilePatch_store w project name reqEtag ⟨dr, some cfg, dvOpt⟩ p p'
      hget hafter with h | h
  · subst h
    exact ⟨fun _ _ _ hv => hv, fun _ => rfl⟩
  · subst h
    constructor
    · intro k v hk hv
      simpa [Finmap.lookup_union_right hk] using hv
    · intro hcfg0
      subst hcfg0
      exact Finmap.empty_union

/-- Witness for C2 as amended at concrete inputs: the key "limits.cpu" of the
previous config survives a patch whose config supplies a different key. -/
theorem C2_amended_witness :
    prof1.config.lookup "limits.cpu" = some "2" ∧
    ∀ p', storeGet (profilePatch w1 "p" "web" none
        (some ⟨none, some cfgB, none⟩)).2 "p" "web" = some p' →
      p'.config.lookup "limits.cpu" = some "2" := by
  constructor
  · decide
  · intro p' hafter
    exact (C2_amended w1 "p" "web" prof1 p' none none cfgB none
        (by decide) hafter).1 "limits.cpu" "2" (by decide) (by decide)

/-- C9: in a patch of an existing profile, when the raw body does not contain
the key "description" the resulting profile keeps the previous description;
when the raw body contains "description" (any string, the empty string
included) and the patch succeeds, the resulting description is exactly the
supplied value. -/
theorem C9_description :
    ∀ (w : World) (project name : String) (p : ProfileRec)
      (cfgOpt : Option SMap) (dvOpt : Option DMap) (reqEtag : Option Etag),
      storeGet w.store project name = some p →
      ((∀ p', storeGet (profilePatch w project name reqEtag
            (some ⟨none, cfgOpt, dvOpt⟩)).2 project name = some p' →
         p'.description = p.description)
       ∧ (∀ (s : String) (p' : ProfileRec),
          (profilePatch w project name reqEtag
            (some ⟨some s, cfgOpt, dvOpt⟩)).1 = Response.emptySync →
          storeGet (profilePatch w project name reqEtag
              (some ⟨some s, cfgOpt, dvOpt⟩)).2 project name = some p' →
          p'.description = s)) := by
  intro w project name p cfgOpt dvOpt reqEtag hget
  constructor
  · intro p' hafter
    rcases profilePatch_store w project name reqEtag ⟨none, cfgOpt, dvOpt⟩ p p'
        hget hafter with h | h
    · subst h; rfl
    · subst h; rfl
  · intro s p' hs hafter
    rw [profilePatch_success w project name reqEtag ⟨some s, cfgOpt, dvOpt⟩ p
        hget hs] at hafter
    rw [storeGet_map_replace w.store project name _ p hget] at hafter
    exact congrArg ProfileRec.description (Option.some.inj hafter).symm

/-- Witness for C9 at concrete inputs: a patch without "description" in the
raw body keeps "desc one", a patch with an empty-string description sets the
empty string. -/
theorem C9_description_witness :
    (∀ p', storeGet (profilePatch w1 "p" "web" none
        (some ⟨none, none, none⟩)).2 "p" "web" = some p' →
      p'.description = prof1.description) ∧
    ∀ p', (profilePatch w1 "p" "web" none (some ⟨some "", none, none⟩)).1 =
        Response.emptySync →
      storeGet (profilePatch w1 "p" "web" none
          (some ⟨some "", none, none⟩)).2 "p" "web" = some p' →
      p'.description = "" :=
  ⟨fun p' h => (C9_description w1 "p" "web" prof1 none none none
      (by decide)).1 p' h,
    fun p' hs h => (C9_description w1 "p" "web" prof1 none none none
      (by decide)).2 "" p' hs h⟩

/-- C8: renaming an existing non-default profile (with a well-formed new
name) to a name already stored in the namespace answers Conflict and leaves
the store unchanged; renaming to an unused name answers the location
response, after which a get of the old name answers NotFound and a get of the
new name returns the profile with description, config and devices
unchanged (and so the unchanged fingerprint). -/
theorem C8_rename :
    ∀ (w : World) (project name newName : String) (p : ProfileRec),
      w.hasProfiles project = true →
      name ≠ "default" →
      newName ≠ "" →
      newName.data.contains (Char.ofNat 47) = false →
      newName ≠ "." → newName ≠ ".." →
      storeGet w.store project name = some p →
      ((∀ q, storeGet w.store project newName = some q →
         profilePost w project name (some ⟨newName⟩) =
           (Response.conflict newName, w.store))
       ∧ (storeGet w.store project newName = none →
          (profilePost w project name (some ⟨newName⟩)).1 =
            Response.syncLocation ("/1.0/profiles/" ++ newName) ∧
          profileGet ⟨(profilePost w project name (some ⟨newName⟩)).2,
              w.hasProfiles, w.containersWith, w.validConfig, w.validDevices⟩
            project name = Response.notFound ∧
          profileGet ⟨(profilePost w project name (some ⟨newName⟩)).2,
              w.hasProfiles, w.containersWith, w.validConfig, w.validDevices⟩
            project newName = Response.syncETag p (profileEtag p))) := by
  intro w project name newName p hfeat hnd hne hslash hdot1 hdot2 hold
  have hslash2 : Char.ofNat 47 ∉ newName.data := by
    simpa using hslash
  constructor
  · intro q hq
    simp [profilePost, hnd, hne, hslash2, hdot1, hdot2, hq, smartError]
  · intro hnewnone
    have hnne : newName ≠ name := by
      intro h
      rw [h, hold] at hnewnone
      exact Option.noConfusion hnewnone
    have hpost : profilePost w project name (some ⟨newName⟩) =
        (Response.syncLocation ("/1.0/profiles/" ++ newName),
          w.store.map (fun e => if e.1 = (project, name)
            then ((project, newName), e.2) else e)) := by
      simp [profilePost, hnd, hne, hslash2, hdot1, hdot2, hnewnone,
        storeRename, hold]
    rw [hpost]
    refine ⟨rfl, ?_, ?_⟩
    · simp [profileGet, hfeat, storeGet_rename_old w.store project name newName
        hnne, smartError]
    · simp [profileGet, hfeat, storeGet_rename_new w.store project name newName
        p hold hnewnone]

/-- Witness for C8 at concrete inputs: renaming "web" onto the live name
"blog" in `w8` answers Conflict; renaming "web" to the unused "blog" in `w1`
succeeds, after which "web" is NotFound and "blog" carries the unchanged
fields. -/
theorem C8_rename_witness :
    profilePost w8 "p" "web" (some ⟨"blog"⟩) =
      (Response.conflict "blog", w8.store) ∧
    (profilePost w1 "p" "web" (some ⟨"blog"⟩)).1 =
      Response.syncLocation "/1.0/profiles/blog" ∧
    profileGet ⟨(profilePost w1 "p" "web" (some ⟨"blog"⟩)).2, w1.hasProfiles,
        w1.containersWith, w1.validConfig, w1.validDevices⟩ "p" "web" =
      Response.notFound ∧
    profileGet ⟨(profilePost w1 "p" "web" (some ⟨"blog"⟩)).2, w1.hasProfiles,
        w1.containersWith, w1.validConfig, w1.validDevices⟩ "p" "blog" =
      Response.syncETag prof1 (profileEtag prof1) :=
  ⟨(C8_rename w8 "p" "web" "blog" prof1 rfl (by decide) (by decide) (by decide)
      (by decide) (by decide) (by decide)).1 prof2 (by decide),
    (C8_rename w1 "p" "web" "blog" prof1 rfl (by decide) (by decide)
      (by decide) (by decide) (by decide) (by decide)).2 (by decide)⟩

end LXDProfiles
